import Mathlib

/-!
Verification development for the real-estate chatbot repository.

The embedding below follows the Python sources:
* `schemas.py` — the `PropertyIssueReport` pydantic schema (required fields
  reject construction when missing, `safety_warnings` defaults to `[]`);
* `agents.py` — the graph nodes `run_agent_1`, `run_agent_2`, `route_query`
  and `ask_clarification`, each of which reads a turn-state dictionary and
  returns a new dictionary built with `{**state, ...}` updates;
* `app.py` (both iterations) — the assembly of the enhanced query text from
  the typed text and the sidebar context at turn submission.

Model calls are represented by oracle functions passed as arguments; a call
that raises is an oracle returning `Except.error`.  Each node result carries
`modelCalls`, the number of model invocations the node performed on that
run, so that claims of the form "performs no model call" are statable.
Bytes values are lists of byte values; Python truthiness of an optional
bytes value (`None` and `b""` are falsy) is `truthyBytes`.
-/

/-- The `PropertyIssueReport` schema from `schemas.py`. -/
structure PropertyIssueReport where
  issue_assessment : String
  troubleshooting_suggestions : List String
  professional_referral : List String
  safety_warnings : List String
deriving DecidableEq

/-- Pydantic construction semantics for `PropertyIssueReport` in
`schemas.py`: `issue_assessment`, `troubleshooting_suggestions` and
`professional_referral` are declared without a default, so constructing
the model without them raises a validation error; `safety_warnings` is
declared with `default=[]` and defaults to the empty list. -/
def PropertyIssueReport.construct (ia : Option String)
    (ts pr sw : Option (List String)) : Except String PropertyIssueReport :=
  match ia with
  | none => Except.error "validation error: issue_assessment is required"
  | some a =>
    match ts with
    | none => Except.error "validation error: troubleshooting_suggestions is required"
    | some t =>
      match pr with
      | none => Except.error "validation error: professional_referral is required"
      | some p =>
        Except.ok { issue_assessment := a, troubleshooting_suggestions := t,
                    professional_referral := p, safety_warnings := sw.getD [] }

/-- Whether a pydantic construction succeeded. -/
def constructOk (e : Except String PropertyIssueReport) : Bool :=
  match e with
  | Except.ok _ => true
  | Except.error _ => false

/-- Modelled from the spec: the `TenancyFAQResponse` schema is imported by
`agents.py` from `schemas.py`, but its definition is not among the provided
sources; the fields follow the data model section of the spec. -/
structure TenancyFAQResponse where
  answer : String
  legal_references : List String
  regional_specifics : Option String
  additional_resources : List String
  disclaimer : String
deriving DecidableEq

/-- One chat message of the session history (`st.session_state.messages`). -/
structure ChatMessage where
  role : String
  content : String
  image : Option String
deriving DecidableEq

/-- A response value held in the turn state: a plain string or one of the
two structured payloads. -/
inductive Resp where
  | str : String → Resp
  | report : PropertyIssueReport → Resp
  | faq : TenancyFAQResponse → Resp
deriving DecidableEq

/-- The turn-state dictionary threaded through the graph.  Optional fields
model dictionary keys that may be absent or `None`. -/
structure TurnState where
  query : String
  image_data : Option (List Nat)
  location : Option String
  response : Option Resp
  sender : Option String
  next : Option String
  chat_history : List ChatMessage
deriving DecidableEq

/-- Python truthiness of the optional bytes value `state.get("image_data")`:
`None` and the empty bytes `b""` are falsy. -/
def truthyBytes : Option (List Nat) → Bool
  | none => false
  | some b => !b.isEmpty

/-- Python truthiness of the `response` entry: absent and `None` and the
empty string are falsy; a non-empty string and either structured payload
are truthy. -/
def truthyResp : Option Resp → Bool
  | none => false
  | some (Resp.str s) => !s.data.isEmpty
  | some (Resp.report _) => true
  | some (Resp.faq _) => true

/-- The semantics of Python `str.strip()`: remove whitespace from both
ends of the string. -/
def pyStrip (s : String) : String :=
  ⟨((s.data.dropWhile Char.isWhitespace).reverse.dropWhile Char.isWhitespace).reverse⟩

/-- Substring containment, the semantics of the Python expression
`pat in s`. -/
def pyContains (s pat : String) : Bool :=
  decide (pat.data <:+: s.data)

/-- A node result: the returned turn state plus the number of model
invocations performed on that run. -/
structure NodeResult where
  state : TurnState
  modelCalls : Nat
deriving DecidableEq

/-- `run_agent_1` from `agents.py`.  `analyze` is the structured-output
model call on the human-message text and the image bytes; an exception
raised by it is an `Except.error` carrying `str(e)`. -/
def run_agent_1 (analyze : String → List Nat → Except String PropertyIssueReport)
    (state : TurnState) : NodeResult :=
  if truthyBytes state.image_data = false then
    { state := { state with
        response := some (Resp.str "I need an image to analyze property issues. Please upload a photo of the issue."),
        sender := some "agent_1" },
      modelCalls := 0 }
  else
    let text := if state.query = "" then "Please analyze this image for property issues." else state.query
    match analyze text (state.image_data.getD []) with
    | Except.ok r =>
      { state := { state with response := some (Resp.report r), sender := some "agent_1" },
        modelCalls := 1 }
    | Except.error e =>
      { state := { state with
          response := some (Resp.str ("I encountered an error analyzing the image: " ++ e ++ ". Please try again with a clearer image.")),
          sender := some "agent_1" },
        modelCalls := 1 }

/-- `run_agent_2` from `agents.py`.  `answerFaq` is the structured-output
model call on the full query text. -/
def run_agent_2 (answerFaq : String → Except String TenancyFAQResponse)
    (state : TurnState) : NodeResult :=
  if state.query = "" then
    { state := { state with
        response := some (Resp.str "I need a question about tenancy or rental properties to assist you."),
        sender := some "agent_2" },
      modelCalls := 0 }
  else
    let location := state.location.getD ""
    let full_query :=
      if location = "" then state.query
      else state.query ++ " (Location: " ++ location ++ ")"
    match answerFaq full_query with
    | Except.ok r =>
      { state := { state with response := some (Resp.faq r), sender := some "agent_2" },
        modelCalls := 1 }
    | Except.error e =>
      { state := { state with
          response := some (Resp.str ("I encountered an error answering your question: " ++ e ++ ". Please try rephrasing or asking a different question.")),
          sender := some "agent_2" },
        modelCalls := 1 }

/-- `route_query` from `agents.py`.  `classify` is the fast-model call on
the query; its `Except.ok` value is `router_response.content`. -/
def route_query (classify : String → Except String String)
    (state : TurnState) : NodeResult :=
  if truthyBytes state.image_data then
    { state := { state with next := some "agent_1" }, modelCalls := 0 }
  else if pyStrip state.query = "" then
    { state := { state with
        next := some "clarification",
        response := some (Resp.str "Please provide a question or upload an image of a property issue so I can assist you.") },
      modelCalls := 0 }
  else
    match classify state.query with
    | Except.error e =>
      { state := { state with
          next := some "clarification",
          response := some (Resp.str ("I encountered an error routing your query: " ++ e ++ ". Could you please rephrase your question?")) },
        modelCalls := 1 }
    | Except.ok content =>
      let router_decision := pyStrip content
      if pyContains router_decision "PROPERTY_ISSUE" then
        if truthyBytes state.image_data = false then
          { state := { state with
              next := some "clarification",
              response := some (Resp.str "It looks like you\x27re asking about a property issue. Could you upload an image of the issue so I can analyze it better?") },
            modelCalls := 1 }
        else
          { state := { state with next := some "agent_1" }, modelCalls := 1 }
      else if pyContains router_decision "TENANCY_FAQ" then
        { state := { state with next := some "agent_2" }, modelCalls := 1 }
      else
        { state := { state with
            next := some "clarification",
            response := some (Resp.str "I\x27m not sure if you\x27re asking about a property issue or a tenancy question. Could you provide more details or specify which type of assistance you need?") },
          modelCalls := 1 }

/-- `ask_clarification` from `agents.py`: keeps a truthy response already
written by the router, otherwise writes the default clarification text;
either way it performs no model call. -/
def ask_clarification (state : TurnState) : TurnState :=
  if truthyResp state.response then
    { state with sender := some "clarification" }
  else
    { state with
        response := some (Resp.str "I need more information to help you. Are you asking about a property issue (please upload an image if so) or do you have a question about tenancy laws and regulations?"),
        sender := some "clarification" }

/-- The sidebar context values read at turn submission in `app.py`;
`location` is the raw text-input value (empty when unset). -/
structure SidebarContext where
  location : String
  property_type : String
  occupancy : String
  property_age : Nat
deriving DecidableEq

/-- The `context_str` accumulation at turn submission in `app.py`: one
fragment per sidebar field that differs from its no-op default, in the
fixed order location, property type, occupancy, property age. -/
def context_str (c : SidebarContext) : String :=
  (if c.location = "" then "" else " Location: " ++ c.location ++ ".")
  ++ (if c.property_type = "Other" then "" else " Property type: " ++ c.property_type ++ ".")
  ++ (if c.occupancy = "Not applicable" then "" else " Occupancy: " ++ c.occupancy ++ ".")
  ++ (if c.property_age = 0 then "" else " Property age: " ++ toString c.property_age ++ " years.")

/-- The `enhanced_query` assembly at turn submission in `app.py`: the
context suffix is appended only when both the context string and the typed
text are non-empty (`if context_str and enhanced_query`). -/
def enhanced_query (user_input : String) (c : SidebarContext) : String :=
  if context_str c = "" then user_input
  else if user_input = "" then user_input
  else user_input ++ "\n\nAdditional context:" ++ context_str c

/-- The spec wording of the enhanced-query step, for comparison with the
code: the context suffix is appended whenever any sidebar field differs
from its no-op default, with no condition on the typed text. -/
def enhanced_query_spec (user_input : String) (c : SidebarContext) : String :=
  if context_str c = "" then user_input
  else user_input ++ "\n\nAdditional context:" ++ context_str c

/-- Two turn states agree on every field no graph node owns: query, image
bytes, location and chat history. -/
def preservesContext (a b : TurnState) : Prop :=
  a.query = b.query ∧ a.image_data = b.image_data ∧
  a.location = b.location ∧ a.chat_history = b.chat_history

/-- C1 counterexample: a turn state whose `image_data` is present but is the
empty bytes value is not routed to agent 1 by `route_query`; it falls into
the empty-query clarification branch instead. -/
theorem c1_counterexample :
    ((⟨"", some [], none, none, some "user", none, []⟩ : TurnState).image_data ≠ none) ∧
    (route_query (fun _ => Except.error "model unavailable")
        ⟨"", some [], none, none, some "user", none, []⟩).state.next = some "clarification" ∧
    (route_query (fun _ => Except.error "model unavailable")
        ⟨"", some [], none, none, some "user", none, []⟩).state.next ≠ some "agent_1" := by
  refine ⟨by decide, ?_, ?_⟩ <;> decide

/-- C1 (amended): for every turn state whose `image_data` is present and
non-empty (Python-truthy), `route_query` sets `next` to agent 1 without any
model call, regardless of the query content. -/
theorem c1_truthy_image_routes_to_agent_1
    (classify : String → Except String String) (state : TurnState)
    (h : truthyBytes state.image_data = true) :
    (route_query classify state).state.next = some "agent_1" ∧
    (route_query classify state).modelCalls = 0 := by
  simp [route_query, h]

/-- C1 witness: the amended routing theorem applied at a concrete state
with a one-byte image and an empty query. -/
theorem c1_truthy_image_routes_to_agent_1_witness :
    truthyBytes ((⟨"", some [255], none, none, some "user", none, []⟩ : TurnState).image_data) = true ∧
    ((route_query (fun _ => Except.error "model unavailable")
        ⟨"", some [255], none, none, some "user", none, []⟩).state.next = some "agent_1" ∧
     (route_query (fun _ => Except.error "model unavailable")
        ⟨"", some [255], none, none, some "user", none, []⟩).modelCalls = 0) :=
  ⟨by decide,
   c1_truthy_image_routes_to_agent_1 (fun _ => Except.error "model unavailable")
     ⟨"", some [255], none, none, some "user", none, []⟩ (by decide)⟩

/-- C2: with no image and an empty-or-whitespace query, the router routes
to clarification with the fixed prompt and zero model calls, and
`ask_clarification` then keeps that text and only sets the sender, so the
final response of the turn is the fixed string. -/
theorem c2_blank_query_clarification
    (classify : String → Except String String) (state : TurnState)
    (himg : state.image_data = none) (hq : pyStrip state.query = "") :
    route_query classify state =
      ⟨{ state with
          next := some "clarification",
          response := some (Resp.str "Please provide a question or upload an image of a property issue so I can assist you.") },
        0⟩ ∧
    ask_clarification (route_query classify state).state =
      { state with
          next := some "clarification",
          response := some (Resp.str "Please provide a question or upload an image of a property issue so I can assist you."),
          sender := some "clarification" } := by
  have h1 : route_query classify state =
      ⟨{ state with
          next := some "clarification",
          response := some (Resp.str "Please provide a question or upload an image of a property issue so I can assist you.") },
        0⟩ := by
    simp [route_query, himg, hq, truthyBytes]
  refine ⟨h1, ?_⟩
  rw [h1]
  simp [ask_clarification, truthyResp]

/-- C2 witness: the clarification theorem applied at a concrete state with
a whitespace-only query and no image. -/
theorem c2_blank_query_clarification_witness :
    ((⟨"  ", none, none, none, some "user", none, []⟩ : TurnState).image_data = none ∧
     pyStrip (⟨"  ", none, none, none, some "user", none, []⟩ : TurnState).query = "") ∧
    ask_clarification (route_query (fun _ => Except.error "model unavailable")
        ⟨"  ", none, none, none, some "user", none, []⟩).state =
      { (⟨"  ", none, none, none, some "user", none, []⟩ : TurnState) with
          next := some "clarification",
          response := some (Resp.str "Please provide a question or upload an image of a property issue so I can assist you."),
          sender := some "clarification" } :=
  ⟨⟨rfl, by decide⟩,
   (c2_blank_query_clarification (fun _ => Except.error "model unavailable")
     ⟨"  ", none, none, none, some "user", none, []⟩ rfl (by decide)).2⟩

/-- C3: agent 1 invoked with `image_data` absent returns the fixed
image-request message with sender agent 1 and no model call, and agent 2
invoked with an empty query returns the fixed question-request message
with sender agent 2 and no model call. -/
theorem c3_missing_input_messages
    (analyze : String → List Nat → Except String PropertyIssueReport)
    (answerFaq : String → Except String TenancyFAQResponse)
    (s1 s2 : TurnState) (h1 : s1.image_data = none) (h2 : s2.query = "") :
    run_agent_1 analyze s1 =
      ⟨{ s1 with
          response := some (Resp.str "I need an image to analyze property issues. Please upload a photo of the issue."),
          sender := some "agent_1" },
        0⟩ ∧
    run_agent_2 answerFaq s2 =
      ⟨{ s2 with
          response := some (Resp.str "I need a question about tenancy or rental properties to assist you."),
          sender := some "agent_2" },
        0⟩ := by
  constructor
  · simp [run_agent_1, h1, truthyBytes]
  · simp [run_agent_2, h2]

/-- C3 witness: the missing-input theorem applied at concrete states (no
image for agent 1, empty query for agent 2). -/
theorem c3_missing_input_messages_witness :
    ((⟨"leaky tap", none, none, none, some "user", none, []⟩ : TurnState).image_data = none ∧
     (⟨"", none, some "London", none, some "user", none, []⟩ : TurnState).query = "") ∧
    (run_agent_1 (fun _ _ => Except.error "model unavailable")
        ⟨"leaky tap", none, none, none, some "user", none, []⟩ =
      ⟨{ (⟨"leaky tap", none, none, none, some "user", none, []⟩ : TurnState) with
          response := some (Resp.str "I need an image to analyze property issues. Please upload a photo of the issue."),
          sender := some "agent_1" },
        0⟩ ∧
     run_agent_2 (fun _ => Except.error "model unavailable")
        ⟨"", none, some "London", none, some "user", none, []⟩ =
      ⟨{ (⟨"", none, some "London", none, some "user", none, []⟩ : TurnState) with
          response := some (Resp.str "I need a question about tenancy or rental properties to assist you."),
          sender := some "agent_2" },
        0⟩) :=
  ⟨⟨rfl, rfl⟩,
   c3_missing_input_messages (fun _ _ => Except.error "model unavailable")
     (fun _ => Except.error "model unavailable")
     ⟨"leaky tap", none, none, none, some "user", none, []⟩
     ⟨"", none, some "London", none, some "user", none, []⟩ rfl rfl⟩

/-- C4 counterexample: with an empty typed text and the location sidebar
field set (all other fields at their no-op defaults), the context string is
non-empty yet the assembled enhanced query is the empty string — no
"Additional context:" suffix is appended, contrary to the claim. -/
theorem c4_counterexample :
    context_str ⟨"London", "Other", "Not applicable", 0⟩ ≠ "" ∧
    enhanced_query "" ⟨"London", "Other", "Not applicable", 0⟩ = "" ∧
    enhanced_query "" ⟨"London", "Other", "Not applicable", 0⟩ ≠
      enhanced_query_spec "" ⟨"London", "Other", "Not applicable", 0⟩ := by
  refine ⟨by decide, by decide, by decide⟩

/-- C4 (amended): when the typed text is non-empty, the assembled enhanced
query agrees with the spec wording — the "Additional context:" suffix is
appended exactly when some sidebar field differs from its no-op default;
with an empty typed text the context is dropped and the enhanced query is
the typed (empty) text. -/
theorem c4_enhanced_query_amended (u : String) (c : SidebarContext) (h : u ≠ "") :
    (context_str c ≠ "" → enhanced_query u c = u ++ "\n\nAdditional context:" ++ context_str c) ∧
    (context_str c = "" → enhanced_query u c = u) ∧
    enhanced_query u c = enhanced_query_spec u c := by
  refine ⟨fun hc => ?_, fun hc => ?_, ?_⟩
  · simp [enhanced_query, hc, h]
  · simp [enhanced_query, hc]
  · simp [enhanced_query, enhanced_query_spec, h]

/-- C4 witness: the amended assembly theorem applied at non-empty typed
text with the location field set. -/
theorem c4_enhanced_query_amended_witness :
    ("my wall is damp" ≠ "") ∧
    ((context_str ⟨"London", "Other", "Not applicable", 0⟩ ≠ "" →
        enhanced_query "my wall is damp" ⟨"London", "Other", "Not applicable", 0⟩ =
          "my wall is damp" ++ "\n\nAdditional context:" ++ context_str ⟨"London", "Other", "Not applicable", 0⟩) ∧
     (context_str ⟨"London", "Other", "Not applicable", 0⟩ = "" →
        enhanced_query "my wall is damp" ⟨"London", "Other", "Not applicable", 0⟩ = "my wall is damp") ∧
     enhanced_query "my wall is damp" ⟨"London", "Other", "Not applicable", 0⟩ =
       enhanced_query_spec "my wall is damp" ⟨"London", "Other", "Not applicable", 0⟩) :=
  ⟨by decide, c4_enhanced_query_amended "my wall is damp" ⟨"London", "Other", "Not applicable", 0⟩ (by decide)⟩

/-- C5 counterexample: supplying `issue_assessment` but omitting
`troubleshooting_suggestions` (or `professional_referral`) does not yield
a report with that list defaulted to empty — construction is rejected. -/
theorem c5_counterexample :
    constructOk (PropertyIssueReport.construct (some "Visible mold on ceiling") none
      (some ["Mold remediation specialist"]) (some [])) = false ∧
    constructOk (PropertyIssueReport.construct (some "Visible mold on ceiling")
      (some ["Increase ventilation"]) none (some [])) = false :=
  ⟨rfl, rfl⟩

/-- C5 (amended): construction is rejected whenever `issue_assessment`,
`troubleshooting_suggestions` or `professional_referral` is missing, and
only `safety_warnings` — the sole list field declared with a default —
defaults to the empty list when no value is supplied. -/
theorem c5_schema_defaults_amended (a : String) (t p : List String)
    (ts pr sw : Option (List String)) :
    constructOk (PropertyIssueReport.construct none ts pr sw) = false ∧
    constructOk (PropertyIssueReport.construct (some a) none pr sw) = false ∧
    constructOk (PropertyIssueReport.construct (some a) (some t) none sw) = false ∧
    PropertyIssueReport.construct (some a) (some t) (some p) none =
      Except.ok ⟨a, t, p, []⟩ :=
  ⟨rfl, rfl, rfl, rfl⟩

/-- C6 counterexample: a classifier output containing both labels is
matched against PROPERTY_ISSUE first, so a trimmed output containing
TENANCY_FAQ is routed to clarification rather than to agent 2. -/
theorem c6_counterexample :
    pyContains (pyStrip "PROPERTY_ISSUE or TENANCY_FAQ") "TENANCY_FAQ" = true ∧
    (route_query (fun _ => Except.ok "PROPERTY_ISSUE or TENANCY_FAQ")
        ⟨"is the landlord responsible for this damp wall", none, none, none, some "user", none, []⟩).state.next =
      some "clarification" ∧
    (route_query (fun _ => Except.ok "PROPERTY_ISSUE or TENANCY_FAQ")
        ⟨"is the landlord responsible for this damp wall", none, none, none, some "user", none, []⟩).state.next ≠
      some "agent_2" := by
  refine ⟨by decide, by decide, by decide⟩

/-- C6 (amended): with no (truthy) image, a non-blank query, and a
classifier output whose trimmed text contains TENANCY_FAQ but not
PROPERTY_ISSUE (the label tested first), the router sets `next` to
agent 2; containment, not equality, is what is tested. -/
theorem c6_tenancy_label_containment
    (classify : String → Except String String) (state : TurnState) (out : String)
    (himg : truthyBytes state.image_data = false)
    (hq : pyStrip state.query ≠ "")
    (hc : classify state.query = Except.ok out)
    (hp : pyContains (pyStrip out) "PROPERTY_ISSUE" = false)
    (ht : pyContains (pyStrip out) "TENANCY_FAQ" = true) :
    (route_query classify state).state.next = some "agent_2" := by
  simp [route_query, himg, hq, hc, hp, ht]

/-- C6 witness: the containment theorem applied to the raw classifier
output given in the spec, which is not equal to the bare label. -/
theorem c6_tenancy_label_containment_witness :
    (truthyBytes ((⟨"what are my rights as a tenant", none, none, none, some "user", none, []⟩ : TurnState).image_data) = false ∧
     pyStrip (⟨"what are my rights as a tenant", none, none, none, some "user", none, []⟩ : TurnState).query ≠ "" ∧
     pyContains (pyStrip "Classification: TENANCY_FAQ (confidence high)") "PROPERTY_ISSUE" = false ∧
     pyContains (pyStrip "Classification: TENANCY_FAQ (confidence high)") "TENANCY_FAQ" = true) ∧
    (route_query (fun _ => Except.ok "Classification: TENANCY_FAQ (confidence high)")
        ⟨"what are my rights as a tenant", none, none, none, some "user", none, []⟩).state.next =
      some "agent_2" :=
  ⟨⟨by decide, by decide, by decide, by decide⟩,
   c6_tenancy_label_containment (fun _ => Except.ok "Classification: TENANCY_FAQ (confidence high)")
     ⟨"what are my rights as a tenant", none, none, none, some "user", none, []⟩
     "Classification: TENANCY_FAQ (confidence high)"
     (by decide) (by decide) rfl (by decide) (by decide)⟩

/-- C7: when the model call inside agent 1 raises (the oracle fails with
any error text), `run_agent_1` on a state with a truthy image returns a
string response that begins with "I encountered an error analyzing the
image:" and sender agent 1; the function is total, so nothing escapes. -/
theorem c7_agent_1_error_containment
    (analyze : String → List Nat → Except String PropertyIssueReport)
    (state : TurnState) (e : String)
    (himg : truthyBytes state.image_data = true)
    (he : ∀ t b, analyze t b = Except.error e) :
    run_agent_1 analyze state =
      ⟨{ state with
          response := some (Resp.str ("I encountered an error analyzing the image: " ++ e ++ ". Please try again with a clearer image.")),
          sender := some "agent_1" },
        1⟩ ∧
    ∃ rest : String,
      ("I encountered an error analyzing the image: " ++ e ++ ". Please try again with a clearer image." : String) =
        "I encountered an error analyzing the image:" ++ rest := by
  constructor
  · simp [run_agent_1, himg, he]
  · refine ⟨" " ++ e ++ ". Please try again with a clearer image.", ?_⟩
    rw [show ("I encountered an error analyzing the image: " : String) =
        "I encountered an error analyzing the image:" ++ " " by decide]
    simp only [String.append_assoc]

/-- C7 witness: the error-containment theorem applied at a concrete state
with a one-byte image and a constantly failing oracle. -/
theorem c7_agent_1_error_containment_witness :
    (truthyBytes ((⟨"", some [7], none, none, some "user", none, []⟩ : TurnState).image_data) = true ∧
     (∀ t b, (fun (_ : String) (_ : List Nat) =>
        (Except.error "503 service unavailable" : Except String PropertyIssueReport)) t b =
          Except.error "503 service unavailable")) ∧
    (run_agent_1 (fun _ _ => Except.error "503 service unavailable")
        ⟨"", some [7], none, none, some "user", none, []⟩ =
      ⟨{ (⟨"", some [7], none, none, some "user", none, []⟩ : TurnState) with
          response := some (Resp.str ("I encountered an error analyzing the image: " ++ "503 service unavailable" ++ ". Please try again with a clearer image.")),
          sender := some "agent_1" },
        1⟩ ∧
     ∃ rest : String,
       ("I encountered an error analyzing the image: " ++ "503 service unavailable" ++ ". Please try again with a clearer image." : String) =
         "I encountered an error analyzing the image:" ++ rest) :=
  ⟨⟨by decide, fun _ _ => rfl⟩,
   c7_agent_1_error_containment (fun _ _ => Except.error "503 service unavailable")
     ⟨"", some [7], none, none, some "user", none, []⟩ "503 service unavailable"
     (by decide) (fun _ _ => rfl)⟩

/-- C8: every graph node returns a state that agrees with its input on the
fields it does not own — query, image bytes, location and chat history are
unchanged in the output of the router, both agents and clarification. -/
theorem c8_nodes_preserve_unowned_fields
    (analyze : String → List Nat → Except String PropertyIssueReport)
    (answerFaq : String → Except String TenancyFAQResponse)
    (classify : String → Except String String) (s : TurnState) :
    preservesContext (run_agent_1 analyze s).state s ∧
    preservesContext (run_agent_2 answerFaq s).state s ∧
    preservesContext (route_query classify s).state s ∧
    preservesContext (ask_clarification s) s := by
  refine ⟨?_, ?_, ?_, ?_⟩
  · unfold preservesContext run_agent_1
    (repeat' (first | split | (dsimp only; split))) <;> simp
  · unfold preservesContext run_agent_2
    (repeat' (first | split | (dsimp only; split))) <;> simp
  · unfold preservesContext route_query
    (repeat' (first | split | (dsimp only; split))) <;> simp
  · unfold preservesContext ask_clarification
    (repeat' (first | split | (dsimp only; split))) <;> simp

/-- C9: a present-but-empty image value is Python-falsy, so agent 1 answers
with the image-request message without a model call, and the router makes
the same decision (same `next`, `response` and model-call count) as it
would with the image absent. -/
theorem c9_empty_bytes_image_treated_as_absent
    (analyze : String → List Nat → Except String PropertyIssueReport)
    (classify : String → Except String String)
    (s : TurnState) (h : s.image_data = some []) :
    run_agent_1 analyze s =
      ⟨{ s with
          response := some (Resp.str "I need an image to analyze property issues. Please upload a photo of the issue."),
          sender := some "agent_1" },
        0⟩ ∧
    (route_query classify s).state.next =
      (route_query classify { s with image_data := none }).state.next ∧
    (route_query classify s).state.response =
      (route_query classify { s with image_data := none }).state.response ∧
    (route_query classify s).modelCalls =
      (route_query classify { s with image_data := none }).modelCalls := by
  refine ⟨?_, ?_⟩
  · simp [run_agent_1, h, truthyBytes]
  · unfold route_query
    rw [h]
    (repeat' (first | split | (dsimp only; split))) <;> simp_all [truthyBytes]

/-- C9 witness: the empty-bytes theorem applied at a concrete state whose
image entry is the empty bytes value. -/
theorem c9_empty_bytes_image_treated_as_absent_witness :
    ((⟨"hello", some [], none, none, some "user", none, []⟩ : TurnState).image_data = some []) ∧
    (run_agent_1 (fun _ _ => Except.error "model unavailable")
        ⟨"hello", some [], none, none, some "user", none, []⟩ =
      ⟨{ (⟨"hello", some [], none, none, some "user", none, []⟩ : TurnState) with
          response := some (Resp.str "I need an image to analyze property issues. Please upload a photo of the issue."),
          sender := some "agent_1" },
        0⟩ ∧
     (route_query (fun _ => Except.ok "UNCLEAR_ISSUE")
         ⟨"hello", some [], none, none, some "user", none, []⟩).state.next =
       (route_query (fun _ => Except.ok "UNCLEAR_ISSUE")
         { (⟨"hello", some [], none, none, some "user", none, []⟩ : TurnState) with image_data := none }).state.next ∧
     (route_query (fun _ => Except.ok "UNCLEAR_ISSUE")
         ⟨"hello", some [], none, none, some "user", none, []⟩).state.response =
       (route_query (fun _ => Except.ok "UNCLEAR_ISSUE")
         { (⟨"hello", some [], none, none, some "user", none, []⟩ : TurnState) with image_data := none }).state.response ∧
     (route_query (fun _ => Except.ok "UNCLEAR_ISSUE")
         ⟨"hello", some [], none, none, some "user", none, []⟩).modelCalls =
       (route_query (fun _ => Except.ok "UNCLEAR_ISSUE")
         { (⟨"hello", some [], none, none, some "user", none, []⟩ : TurnState) with image_data := none }).modelCalls) :=
  ⟨rfl,
   c9_empty_bytes_image_treated_as_absent (fun _ _ => Except.error "model unavailable")
     (fun _ => Except.ok "UNCLEAR_ISSUE")
     ⟨"hello", some [], none, none, some "user", none, []⟩ rfl⟩

/-- C10: whenever the classifier is actually consulted (no truthy image,
non-blank query) and its trimmed output contains PROPERTY_ISSUE, the
router routes to clarification with the image-request message — the inner
branch that would select agent 1 after a PROPERTY_ISSUE classification is
unreachable. -/
theorem c10_property_issue_classification_routes_to_clarification
    (classify : String → Except String String) (state : TurnState) (out : String)
    (himg : truthyBytes state.image_data = false)
    (hq : pyStrip state.query ≠ "")
    (hc : classify state.query = Except.ok out)
    (hp : pyContains (pyStrip out) "PROPERTY_ISSUE" = true) :
    (route_query classify state).state.next = some "clarification" ∧
    (route_query classify state).state.response =
      some (Resp.str "It looks like you\x27re asking about a property issue. Could you upload an image of the issue so I can analyze it better?") ∧
    (route_query classify state).state.next ≠ some "agent_1" := by
  refine ⟨?_, ?_, ?_⟩ <;> simp [route_query, himg, hq, hc, hp]

/-- C10 witness: the unreachability theorem applied at a concrete state
and a classifier answering exactly PROPERTY_ISSUE. -/
theorem c10_property_issue_classification_routes_to_clarification_witness :
    (truthyBytes ((⟨"there is a crack in my wall", none, none, none, some "user", none, []⟩ : TurnState).image_data) = false ∧
     pyStrip (⟨"there is a crack in my wall", none, none, none, some "user", none, []⟩ : TurnState).query ≠ "" ∧
     pyContains (pyStrip "PROPERTY_ISSUE") "PROPERTY_ISSUE" = true) ∧
    ((route_query (fun _ => Except.ok "PROPERTY_ISSUE")
        ⟨"there is a crack in my wall", none, none, none, some "user", none, []⟩).state.next = some "clarification" ∧
     (route_query (fun _ => Except.ok "PROPERTY_ISSUE")
        ⟨"there is a crack in my wall", none, none, none, some "user", none, []⟩).state.response =
       some (Resp.str "It looks like you\x27re asking about a property issue. Could you upload an image of the issue so I can analyze it better?") ∧
     (route_query (fun _ => Except.ok "PROPERTY_ISSUE")
        ⟨"there is a crack in my wall", none, none, none, some "user", none, []⟩).state.next ≠ some "agent_1") :=
  ⟨⟨by decide, by decide, by decide⟩,
   c10_property_issue_classification_routes_to_clarification (fun _ => Except.ok "PROPERTY_ISSUE")
     ⟨"there is a crack in my wall", none, none, none, some "user", none, []⟩ "PROPERTY_ISSUE"
     (by decide) (by decide) rfl (by decide)⟩
